import Mathlib

/-!
Shallow embedding of the coupang crawler (`crawler.py`) for verifying the
natural-language specification of its orchestration, block-detection,
extraction and validation logic.

Rows of the tabular output store are modelled as association lists from
column names to cell values; a pandas dataframe is a column list together
with a row list.  Python `None` and pandas `NaN` are both modelled as
`Value.null`; reading an absent column of a row yields `Value.null`, which
matches pandas filling missing cells with `NaN` when frames with different
column sets are concatenated.
-/

set_option autoImplicit false

/-- A cell value in the tabular output store: a string, an integer, or null
(Python `None` / pandas `NaN`). -/
inductive Value where
  | str : String → Value
  | int : Int → Value
  | null : Value
deriving DecidableEq, Repr

/-- A result row: an association list from column name to cell value. -/
abbrev Row := List (String × Value)

/-- First value bound to column `c` in the row, if any. -/
def Row.get (r : Row) (c : String) : Option Value :=
  match r with
  | [] => none
  | (c', v) :: t => if c' = c then some v else Row.get t c

/-- Value of column `c`, with absent cells read as `null` (pandas `NaN`). -/
def Row.getD (r : Row) (c : String) : Value :=
  (r.get c).getD Value.null

/-- Whether the row has a cell for column `c`. -/
def Row.hasCol (r : Row) (c : String) : Bool :=
  (r.get c).isSome

/-- Overwrite (or append) the binding of column `c` — Python dict/cell
assignment. -/
def Row.set (r : Row) (c : String) (v : Value) : Row :=
  match r with
  | [] => [(c, v)]
  | (c', v') :: t => if c' = c then (c, v) :: t else (c', v') :: Row.set t c v

/-- Python `dict.setdefault`: add the binding only when the key is absent. -/
def Row.setdefault (r : Row) (c : String) (v : Value) : Row :=
  if r.hasCol c then r else r ++ [(c, v)]

/-- A dataframe: the uniform column set plus the rows. -/
structure DataFrame where
  cols : List String
  rows : List Row
deriving DecidableEq, Repr

/-! ## ResultValidator._identify_error_records -/

/-- The critical fields checked by `ResultValidator._identify_error_records`
(`crawler.py` line 1392). -/
def critical_fields : List String := ["PRICE", "ORIGIN_PRICE", "COUPANG_PROD_NAME"]

/-- The list of error conditions (pandas boolean masks, modelled as row
predicates) built by `_identify_error_records`: `df["ERROR"].notna()` when the
`ERROR` column exists, and `df[f] == "NA"` for each critical field `f` that
exists. -/
def errorConditions (df : DataFrame) : List (Row → Bool) :=
  (if df.cols.contains "ERROR" then [fun r => !(r.getD "ERROR" == Value.null)] else [])
    ++ critical_fields.filterMap (fun f =>
        if df.cols.contains f then some (fun r => r.getD f == Value.str "NA") else none)

/-- Model of `ResultValidator._identify_error_records` (`crawler.py` 1379–1407): OR all
conditions together and filter the rows; with no applicable condition the
result is an empty frame. -/
def identify_error_records (df : DataFrame) : List Row :=
  match errorConditions df with
  | [] => []
  | c :: cs =>
    let mask := cs.foldl (fun m cond => fun r => m r || cond r) c
    df.rows.filter mask

/-- Unfolding the OR-fold of mask predicates built by
`_identify_error_records`. -/
theorem foldl_or_apply (c : Row → Bool) (cs : List (Row → Bool)) (r : Row) :
    (cs.foldl (fun m cond => fun row => m row || cond row) c) r
      = (c r || cs.any (fun cond => cond r)) := by
  induction cs generalizing c with
  | nil => simp
  | cons d ds ih => simp [List.foldl_cons, ih, Bool.or_assoc]

/-- C1: a row is selected by `_identify_error_records` iff it is a row of the
frame and its `ERROR` cell is non-null, or one of the critical fields equals
the `"NA"` sentinel — each disjunct restricted to columns actually present;
rows satisfying none of the disjuncts are never selected. -/
theorem C1_error_classification (df : DataFrame) (r : Row) :
    r ∈ identify_error_records df ↔
      r ∈ df.rows ∧
        (("ERROR" ∈ df.cols ∧ r.getD "ERROR" ≠ Value.null) ∨
         ("PRICE" ∈ df.cols ∧ r.getD "PRICE" = Value.str "NA") ∨
         ("ORIGIN_PRICE" ∈ df.cols ∧ r.getD "ORIGIN_PRICE" = Value.str "NA") ∨
         ("COUPANG_PROD_NAME" ∈ df.cols ∧
           r.getD "COUPANG_PROD_NAME" = Value.str "NA")) := by
  unfold identify_error_records errorConditions critical_fields
  by_cases hE : "ERROR" ∈ df.cols <;>
    by_cases hP : "PRICE" ∈ df.cols <;>
      by_cases hO : "ORIGIN_PRICE" ∈ df.cols <;>
        by_cases hN : "COUPANG_PROD_NAME" ∈ df.cols <;>
          simp [hE, hP, hO, hN, List.mem_filter, foldl_or_apply] <;>
            tauto

/-! ## DataExtractor.detect_block -/

/-- A navigation response; only the HTTP status is inspected. -/
structure Response where
  status : Nat
deriving DecidableEq, Repr

/-- The facets of a loaded page that `detect_block` inspects.  Each playwright
read can raise, which is modelled with `Except` (the error payload is the
exception message). -/
structure Page where
  content : Except String (List Char)
  selCount : String → Except String Nat
  title : Except String (List Char)

/-- Python `str.lower()`. -/
def lowerChars (s : List Char) : List Char := s.map Char.toLower

/-- Python `pat in s` on strings: `pat` occurs as a contiguous run of `s`. -/
def hasSeq (pat s : List Char) : Bool :=
  s.tails.any (fun t => pat.isPrefixOf t)

/-- The hard-coded block-page text patterns (`crawler.py` 498–506). -/
def block_patterns : List String :=
  ["access denied", "액세스가 차단되었습니다", "비정상적인 접근", "차단되었습니다",
   "권한이 없습니다", "서비스 이용에 불편을 드려", "비정상적인 트래픽"]

/-- The fallback `block_indicators` selector list (`crawler.py` 516–521). -/
def default_block_indicators : List String :=
  ["#contents", ".prod-buy-header", ".prod-price", ".prod-sale-price"]

/-- The suspicious page-title keywords (`crawler.py` 539). -/
def title_keywords : List String := ["로봇", "차단", "접근 제한"]

/-- The missing-element counting loop of `detect_block` (`crawler.py`
523–529): a selector whose count reads zero, or whose count read raises, is
counted as missing. -/
def countMissing (page : Page) : List String → Nat
  | [] => 0
  | sel :: rest =>
    (match page.selCount sel with
     | .ok 0 => 1
     | .ok (_ + 1) => 0
     | .error _ => 1) + countMissing page rest

/-- The body of the big `try` in `detect_block` after the status check:
text-pattern scan, missing-element majority, then title scan; a raise while
reading the content is caught by the outer handler (`false`), a raise while
reading the title is swallowed and execution falls through to `false`. -/
def detectBody (blockIndicators : List String) (page : Page) : Bool :=
  match page.content with
  | .error _ => false
  | .ok html =>
    if block_patterns.any (fun p => hasSeq (lowerChars p.data) (lowerChars html)) then
      true
    else
      if blockIndicators.length ≤ 2 * countMissing page blockIndicators then true
      else
        match page.title with
        | .error _ => false
        | .ok t => title_keywords.any (fun k => hasSeq k.data t)

/-- Model of `DataExtractor.detect_block` (`crawler.py` 489–548): status check first,
then the guarded page inspection. -/
def detect_block (blockIndicators : List String) (page : Page)
    (response : Option Response) : Bool :=
  match response with
  | some resp =>
    if resp.status = 403 ∨ resp.status = 429 ∨ resp.status = 503 then true
    else detectBody blockIndicators page
  | none => detectBody blockIndicators page

/-- Whether the selector's element count reads as zero (no element matches). -/
def selCountIsZero (page : Page) (sel : String) : Bool :=
  match page.selCount sel with
  | .ok 0 => true
  | .ok (_ + 1) => false
  | .error _ => false

/-- When every selector count reads without raising, the missing-element count
is the number of selectors whose count is zero. -/
theorem countMissing_of_ok (page : Page) (sels : List String)
    (h : ∀ sel ∈ sels, ∃ n, page.selCount sel = Except.ok n) :
    countMissing page sels = sels.countP (fun sel => selCountIsZero page sel) := by
  induction sels with
  | nil => rfl
  | cons sel rest ih =>
    obtain ⟨n, hn⟩ := h sel (List.mem_cons_self _ _)
    have hrest := ih (fun s hs => h s (List.mem_cons_of_mem _ hs))
    cases n with
    | zero => simp [countMissing, selCountIsZero, hn, hrest, List.countP_cons, Nat.add_comm]
    | succ m => simp [countMissing, selCountIsZero, hn, hrest, List.countP_cons]


/-- C4: when the page inspection raises no exception, the block verdict is
true iff the HTTP status is 403/429/503, or the page text contains a block
phrase case-insensitively, or at least half of the block-indicator selectors
match no element, or the page title contains a suspicious keyword. -/
theorem C4_block_verdict (blockIndicators : List String) (page : Page)
    (resp : Response) (html t : List Char)
    (hc : page.content = Except.ok html)
    (hs : ∀ sel ∈ blockIndicators, ∃ n, page.selCount sel = Except.ok n)
    (ht : page.title = Except.ok t) :
    detect_block blockIndicators page (some resp) = true ↔
      ((resp.status = 403 ∨ resp.status = 429 ∨ resp.status = 503) ∨
       (∃ p ∈ block_patterns, hasSeq (lowerChars p.data) (lowerChars html) = true) ∨
       blockIndicators.length ≤
         2 * blockIndicators.countP (fun sel => selCountIsZero page sel) ∨
       (∃ k ∈ title_keywords, hasSeq k.data t = true)) := by
  unfold detect_block detectBody
  rw [hc, ht]
  dsimp only
  rw [countMissing_of_ok page blockIndicators hs]
  by_cases hst : resp.status = 403 ∨ resp.status = 429 ∨ resp.status = 503
  · rw [if_pos hst]
    exact ⟨fun _ => Or.inl hst, fun _ => by trivial⟩
  · rw [if_neg hst]
    cases hb : block_patterns.any (fun p => hasSeq (lowerChars p.data) (lowerChars html)) with
    | true =>
      simp only [hb, if_true]
      refine ⟨fun _ => Or.inr (Or.inl ?_), fun _ => by trivial⟩
      simpa using List.any_eq_true.mp hb
    | false =>
      simp only [hb, Bool.false_eq_true, if_false]
      by_cases hm : blockIndicators.length ≤
          2 * blockIndicators.countP (fun sel => selCountIsZero page sel)
      · rw [if_pos hm]
        exact ⟨fun _ => Or.inr (Or.inr (Or.inl hm)), fun _ => by trivial⟩
      · rw [if_neg hm]
        constructor
        · intro hk
          refine Or.inr (Or.inr (Or.inr ?_))
          simpa using List.any_eq_true.mp hk
        · rintro (h | h | h | h)
        

          · exact absurd h hst
          · obtain ⟨p, hpm, hps⟩ := h
            simp only [List.any_eq_false] at hb
            exact absurd hps (by simpa using hb p hpm)
          · exact absurd h hm
          · obtain ⟨k, hkm, hks⟩ := h
            exact List.any_eq_true.mpr ⟨k, by simpa using And.intro hkm hks⟩

/-- A page whose every inspection read succeeds and shows nothing unusual. -/
def pageAllOk : Page :=
  { content := Except.ok []
    selCount := fun _ => Except.ok 1
    title := Except.ok [] }

/-- Witness for C4 at a concrete blocked HTTP status. -/
theorem C4_block_verdict_witness :
    detect_block default_block_indicators pageAllOk (some (Response.mk 403)) = true :=
  (C4_block_verdict default_block_indicators pageAllOk (Response.mk 403) [] []
      rfl (fun _ _ => ⟨1, rfl⟩) rfl).mpr (Or.inl (Or.inl rfl))

/-- A page whose element-count reads all raise, while content and title read
fine and show nothing suspicious. -/
def pageSelRaises : Page :=
  { content := Except.ok []
    selCount := fun _ => Except.error "locator failure"
    title := Except.ok [] }

/-- C10 counterexample: on a page whose selector counting raises for every
block-indicator selector (content and title reading fine, HTTP status 200),
`detect_block` returns `true`, not `false` — the inner handler counts a
raising selector as a missing element, which trips the majority rule. -/
theorem C10_counterexample :
    pageSelRaises.selCount "#contents" = Except.error "locator failure" ∧
    detect_block default_block_indicators pageSelRaises (some (Response.mk 200)) = true := by
  constructor
  · rfl
  · decide

/-- A page whose content read raises. -/
def pageContentRaises : Page :=
  { content := Except.error "content failure"
    selCount := fun _ => Except.ok 1
    title := Except.ok [] }

/-- A page whose title read raises, with everything else unsuspicious. -/
def pageTitleRaises : Page :=
  { content := Except.ok []
    selCount := fun _ => Except.ok 1
    title := Except.error "title failure" }

/-- C10 amended: a raise while reading the page content makes the guarded
inspection return `false`; a raise while reading the title is swallowed, so
when no earlier signal fired the verdict falls through to `false`; but a raise
while counting a block-indicator selector is counted as a missing element
(and can therefore contribute to a `true` verdict via the majority rule). -/
theorem C10_amended_exception_handling :
    (∀ (ind : List String) (page : Page) (msg : String),
        page.content = Except.error msg → detectBody ind page = false) ∧
    (∀ (ind : List String) (page : Page) (html : List Char) (msg : String),
        page.content = Except.ok html →
        block_patterns.any (fun p => hasSeq (lowerChars p.data) (lowerChars html)) = false →
        ¬ ind.length ≤ 2 * countMissing page ind →
        page.title = Except.error msg → detectBody ind page = false) ∧
    (∀ (page : Page) (sel : String) (msg : String) (rest : List String),
        page.selCount sel = Except.error msg →
        countMissing page (sel :: rest) = 1 + countMissing page rest) := by
  refine ⟨?_, ?_, ?_⟩
  · intro ind page msg h
    unfold detectBody
    rw [h]
  · intro ind page html msg hc hp hm ht
    unfold detectBody
    rw [hc]
    dsimp only
    rw [if_neg (by simp [hp]), if_neg hm, ht]
  · intro page sel msg rest h
    simp [countMissing, h]

/-- Witness for C10 amended, exercising all three conjuncts at concrete
pages. -/
theorem C10_amended_witness :
    detectBody default_block_indicators pageContentRaises = false ∧
    detectBody default_block_indicators pageTitleRaises = false ∧
    countMissing pageSelRaises ["#contents"] = 1 + countMissing pageSelRaises [] :=
  ⟨C10_amended_exception_handling.1 default_block_indicators pageContentRaises
      "content failure" rfl,
   C10_amended_exception_handling.2.1 default_block_indicators pageTitleRaises []
      "title failure" rfl (by decide) (by decide) rfl,
   C10_amended_exception_handling.2.2 pageSelRaises "#contents" "locator failure" [] rfl⟩

/-! ## DataExtractor.extract_product_info -/

/-- Apply a list of field writes to a row in order — the mutations an
extraction attempt performs on `product_data`. -/
def applyFields (r : Row) (fields : Row) : Row :=
  fields.foldl (fun acc cv => acc.set cv.1 cv.2) r

/-- The back-fill performed when the whole-record extraction retry is
exhausted (`crawler.py` 596–603): missing fields default to Python `None`
(`COUPON` to `0`), the extraction time is stamped and the error message
recorded.  No `DATE` field is written on this path. -/
def exhaustionFill (data : Row) (errMsg : String) (now : String) : Row :=
  (((((((data.setdefault "COUPANG_PROD_NAME" Value.null).setdefault "PRICE"
      Value.null).setdefault "ORIGIN_PRICE" Value.null).setdefault "COUPON"
      (Value.int 0)).setdefault "COUPON_PRICE" Value.null).setdefault "AC_PRICE"
      Value.null).set "EXTRACTION_TIME" (Value.str now)).set "ERROR" (Value.str errMsg)

/-- The initial `product_data` dict (`crawler.py` 552–556): URL,
ORIGINAL_INDEX, and PROD_ID when the source row carried one. -/
def initProductData (url oi : Value) (prodId : Option Value) : Row :=
  [("URL", url), ("ORIGINAL_INDEX", oi)] ++
    (match prodId with
     | some p => [("PROD_ID", p)]
     | none => [])

/-- The whole-record retry loop of `extract_product_info` (`crawler.py`
561–605).  Attempt `k` either returns the fields it wrote (success) or raises
after writing a partial set of fields; `fuel` is the number of retries left
after the current attempt.  Success stamps `EXTRACTION_TIME` and `DATE`;
exhaustion back-fills and records the error. -/
def extractLoop (attempt : Nat → Except (String × Row) Row) (now dateStr : String) :
    Row → Nat → Nat → Row
  | data, k, fuel =>
    match attempt k with
    | .ok fields =>
      ((applyFields data fields).set "EXTRACTION_TIME" (Value.str now)).set "DATE"
        (Value.str dateStr)
    | .error (msg, wr) =>
      let data' := applyFields data wr
      match fuel with
      | 0 => exhaustionFill data' msg now
      | fuel' + 1 => extractLoop attempt now dateStr data' (k + 1) fuel'

/-- Model of `DataExtractor.extract_product_info` (`crawler.py` 550–605) with
`max_retries = 3`. -/
def extract_product_info (attempt : Nat → Except (String × Row) Row)
    (now dateStr : String) (url oi : Value) (prodId : Option Value) : Row :=
  extractLoop attempt now dateStr (initProductData url oi prodId) 0 2

/-! ## CoupangCrawler._process_batch -/

/-- The error record built when processing a record raises — in particular on
page-load retry exhaustion (`crawler.py` 1215–1231): name/price fields get the
`"NA"` sentinel, `COUPON` is `0`, the extraction time and the error message
are recorded.  No `DATE` field is written on this path. -/
def loadFailRow (url oi : Value) (prodId : Option Value) (errMsg now : String) : Row :=
  [("URL", url), ("ORIGINAL_INDEX", oi), ("COUPANG_PROD_NAME", Value.str "NA"),
   ("PRICE", Value.str "NA"), ("ORIGIN_PRICE", Value.str "NA"),
   ("COUPON", Value.int 0), ("COUPON_PRICE", Value.str "NA"),
   ("AC_PRICE", Value.str "NA"), ("EXTRACTION_TIME", Value.str now),
   ("ERROR", Value.str errMsg)] ++
    (match prodId with
     | some p => [("PROD_ID", p)]
     | none => [])

/-- What the environment does for one record of the window: its processing
raises (page-load retry exhaustion and kin), block detection fires, or
`extract_product_info` produces a row. -/
inductive RecOutcome where
  | pageFail (errMsg : String)
  | blocked
  | extracted (r : Row)
deriving DecidableEq

/-- The per-record environment of a run: outcome, URL, PROD_ID and wall-clock
timestamp for each window index. -/
structure CrawlEnv where
  outcome : Nat → RecOutcome
  url : Nat → Value
  prodId : Nat → Option Value
  now : Nat → String

/-- The single result row appended for a non-blocked record at window index
`idx` (`ORIGINAL_INDEX` is `start_index + idx`, `crawler.py` 1078). -/
def rowFor (env : CrawlEnv) (startIndex idx : Nat) : Row :=
  match env.outcome idx with
  | .pageFail e =>
    loadFailRow (env.url idx) (Value.int (startIndex + idx)) (env.prodId idx) e
      (env.now idx)
  | .extracted r => r
  | .blocked => []

/-- The record loop of `CoupangCrawler._process_batch` (`crawler.py`
1066–1253) over the absolute window indices of one batch.  On block detection
the loop breaks, recording the blocking record's batch-relative index and
appending nothing for it or its successors; every other record appends
exactly one row. -/
def runBatch (env : CrawlEnv) (startIndex batchStart : Nat) :
    List Nat → List Row × Option Nat
  | [] => ([], none)
  | idx :: rest =>
    match env.outcome idx with
    | .blocked => ([], some (idx - batchStart))
    | .pageFail e =>
      let next := runBatch env startIndex batchStart rest
      (loadFailRow (env.url idx) (Value.int (startIndex + idx)) (env.prodId idx) e
         (env.now idx) :: next.1, next.2)
    | .extracted r =>
      let next := runBatch env startIndex batchStart rest
      (r :: next.1, next.2)

/-- When no record of the batch slice trips block detection, the batch
appends exactly one row per record, in input order. -/
theorem runBatch_no_block (env : CrawlEnv) (startIndex batchStart : Nat)
    (l : List Nat) (h : ∀ idx ∈ l, env.outcome idx ≠ RecOutcome.blocked) :
    runBatch env startIndex batchStart l = (l.map (rowFor env startIndex), none) := by
  induction l with
  | nil => rfl
  | cons idx rest ih =>
    have h1 := h idx (List.mem_cons_self _ _)
    have h2 := ih (fun j hj => h j (List.mem_cons_of_mem _ hj))
    cases ho : env.outcome idx with
    | blocked => exact absurd ho h1
    | pageFail e => simp [runBatch, ho, h2, rowFor]
    | extracted r => simp [runBatch, ho, h2, rowFor]

/-- Running a batch slice whose first blocking record is `bidx`: rows are
appended exactly for the records before it, and its offset from the batch
start is reported. -/
theorem runBatch_first_block (env : CrawlEnv) (startIndex batchStart : Nat)
    (l1 l2 : List Nat) (bidx : Nat)
    (h1 : ∀ idx ∈ l1, env.outcome idx ≠ RecOutcome.blocked)
    (hb : env.outcome bidx = RecOutcome.blocked) :
    runBatch env startIndex batchStart (l1 ++ bidx :: l2)
      = (l1.map (rowFor env startIndex), some (bidx - batchStart)) := by
  induction l1 with
  | nil => simp [runBatch, hb]
  | cons idx rest ih =>
    have hidx := h1 idx (List.mem_cons_self _ _)
    have hrest := ih (fun j hj => h1 j (List.mem_cons_of_mem _ hj))
    cases ho : env.outcome idx with
    | blocked => exact absurd ho hidx
    | pageFail e => simp [runBatch, ho, hrest, rowFor]
    | extracted r => simp [runBatch, ho, hrest, rowFor]

/-! ## CoupangCrawler.process_urls — batch loop and checkpointing -/

/-- A checkpoint document as written by `ConfigManager.save_status`
(`crawler.py` 113–135); the timestamp field is omitted from the model. -/
structure Status where
  file_path : String
  last_batch : Nat
  last_index : Nat
  blocked_url_idx : Option Nat
deriving DecidableEq, Repr

/-- The batch loop of `CoupangCrawler.process_urls` (`crawler.py` 913–1016)
from batch `batchIdx` on, over the resolved window `[0, total)` with resolved
start `startIndex`.  Returns the sequence of `save_status` calls, the rows
appended to the output store, and the absolute blocked index when a block
ended the run.  `fuel` bounds the number of batches still processed; it is
irrelevant once it is at least the number of remaining batches.  Per batch:
a pre-batch checkpoint is saved, the batch runs; on a block the blocked
checkpoint `start_index + batch_start + i` is saved and the run returns;
otherwise the post-batch checkpoint advances to `start_index + batch_end`. -/
def crawlFrom (env : CrawlEnv) (bs total startIndex : Nat) (file : String) :
    Nat → Nat → List Status × List Row × Option Nat
  | _, 0 => ([], [], none)
  | batchIdx, fuel + 1 =>
    if batchIdx * bs < total then
      let batchStart := batchIdx * bs
      let batchEnd := min (batchStart + bs) total
      let res := runBatch env startIndex batchStart
        (List.range' batchStart (batchEnd - batchStart))
      match res.2 with
      | some i =>
        ([⟨file, batchIdx, startIndex + batchStart, none⟩,
          ⟨file, batchIdx, startIndex + batchStart, some (startIndex + batchStart + i)⟩],
         res.1, some (startIndex + batchStart + i))
      | none =>
        let rest := crawlFrom env bs total startIndex file (batchIdx + 1) fuel
        (⟨file, batchIdx, startIndex + batchStart, none⟩
           :: ⟨file, batchIdx + 1, startIndex + batchEnd, none⟩ :: rest.1,
         res.1 ++ rest.2.1, rest.2.2)
    else ([], [], none)

/-- One non-blocked batch step of the loop. -/
theorem crawlFrom_step_no_block (env : CrawlEnv) (bs total startIndex : Nat)
    (file : String) (b fuel : Nat)
    (hb : b * bs < total)
    (h : ∀ idx ∈ List.range' (b * bs) (min (b * bs + bs) total - b * bs),
        env.outcome idx ≠ RecOutcome.blocked) :
    crawlFrom env bs total startIndex file b (fuel + 1)
      = (⟨file, b, startIndex + b * bs, none⟩
           :: ⟨file, b + 1, startIndex + min (b * bs + bs) total, none⟩
           :: (crawlFrom env bs total startIndex file (b + 1) fuel).1,
         (List.range' (b * bs) (min (b * bs + bs) total - b * bs)).map
             (rowFor env startIndex)
           ++ (crawlFrom env bs total startIndex file (b + 1) fuel).2.1,
         (crawlFrom env bs total startIndex file (b + 1) fuel).2.2) := by
  rw [crawlFrom, if_pos hb]
  dsimp only
  rw [runBatch_no_block env startIndex _ _ h]

/-- One blocked batch step of the loop: the first blocking record sits at
relative position `i` of batch `b`. -/
theorem crawlFrom_step_block (env : CrawlEnv) (bs total startIndex : Nat)
    (file : String) (b fuel i : Nat)
    (hb : b * bs < total)
    (hi : i < min (b * bs + bs) total - b * bs)
    (hblock : env.outcome (b * bs + i) = RecOutcome.blocked)
    (hfirst : ∀ j, b * bs ≤ j → j < b * bs + i → env.outcome j ≠ RecOutcome.blocked) :
    crawlFrom env bs total startIndex file b (fuel + 1)
      = ([⟨file, b, startIndex + b * bs, none⟩,
          ⟨file, b, startIndex + b * bs, some (startIndex + b * bs + i)⟩],
         (List.range' (b * bs) i).map (rowFor env startIndex),
         some (startIndex + b * bs + i)) := by
  rw [crawlFrom, if_pos hb]
  have hsplit : List.range' (b * bs) (min (b * bs + bs) total - b * bs)
      = List.range' (b * bs) i
          ++ (b * bs + i) :: List.range' (b * bs + i + 1)
              (min (b * bs + bs) total - b * bs - i - 1) := by
    have h1 : List.range' (b * bs) i ++ List.range' (b * bs + i)
        (min (b * bs + bs) total - b * bs - i)
          = List.range' (b * bs) ((min (b * bs + bs) total - b * bs - i) + i) :=
      List.range'_append_1 _ _ _
    have h2 : (min (b * bs + bs) total - b * bs - i) + i
        = min (b * bs + bs) total - b * bs := by omega
    have h3 : min (b * bs + bs) total - b * bs - i
        = (min (b * bs + bs) total - b * bs - i - 1) + 1 := by omega
    rw [h2] at h1
    rw [← h1, h3, List.range'_succ]
    simp
  have hmem : ∀ j ∈ List.range' (b * bs) i, env.outcome j ≠ RecOutcome.blocked := by
    intro j hj
    have hj' := List.mem_range'_1.mp hj
    exact hfirst j hj'.1 (by omega)
  dsimp only
  rw [hsplit, runBatch_first_block env startIndex (b * bs) _ _ _ hmem hblock]
  simp

/-- Running from batch `b` when the first block of the run sits at relative
position `i` of batch `b + d`: every completed batch records its pre- and
post-checkpoint, the blocked batch records its pre-checkpoint and then the
blocked checkpoint, exactly the rows before the blocking record are appended,
and no later batch is attempted. -/
theorem crawlFrom_until_block (env : CrawlEnv) (bs total startIndex i : Nat)
    (file : String) (hi : i < bs) :
    ∀ (d b fuel : Nat), d < fuel → (b + d) * bs + i < total →
      env.outcome ((b + d) * bs + i) = RecOutcome.blocked →
      (∀ j, b * bs ≤ j → j < (b + d) * bs + i → env.outcome j ≠ RecOutcome.blocked) →
      crawlFrom env bs total startIndex file b fuel
        = ((List.range' b d).flatMap
              (fun m => [⟨file, m, startIndex + m * bs, none⟩,
                         ⟨file, m + 1, startIndex + (m * bs + bs), none⟩])
             ++ [⟨file, b + d, startIndex + (b + d) * bs, none⟩,
                 ⟨file, b + d, startIndex + (b + d) * bs,
                   some (startIndex + (b + d) * bs + i)⟩],
           (List.range' (b * bs) (d * bs + i)).map (rowFor env startIndex),
           some (startIndex + (b + d) * bs + i)) := by
  intro d
  induction d with
  | zero =>
    intro b fuel hfuel hwin hblock hfirst
    match fuel, hfuel with
    | fuel + 1, _ =>
      simp only [Nat.add_zero] at hwin hblock hfirst ⊢
      have hb : b * bs < total := by omega
      have hi' : i < min (b * bs + bs) total - b * bs := by omega
      rw [crawlFrom_step_block env bs total startIndex file b fuel i hb hi' hblock hfirst]
      simp [Nat.zero_mul]
  | succ d ih =>
    intro b fuel hfuel hwin hblock hfirst
    match fuel, hfuel with
    | fuel + 1, _ =>
      have hexp : (b + (d + 1)) * bs = b * bs + d * bs + bs := by ring
      rw [hexp] at hwin hblock hfirst
      have hb : b * bs < total := by omega
      have hnoblk : ∀ idx ∈ List.range' (b * bs) (min (b * bs + bs) total - b * bs),
          env.outcome idx ≠ RecOutcome.blocked := by
        intro idx hidx
        have h' := List.mem_range'_1.mp hidx
        exact hfirst idx h'.1 (by omega)
      rw [crawlFrom_step_no_block env bs total startIndex file b fuel hb hnoblk]
      have hmin : min (b * bs + bs) total = b * bs + bs := by omega
      rw [hmin]
      have hexp' : (b + 1 + d) * bs = b * bs + d * bs + bs := by ring
      have ihres := ih (b + 1) fuel (by omega)
        (by rw [hexp']; omega)
        (by rw [hexp']; exact hblock)
        (by
          intro j hj1 hj2
          rw [hexp'] at hj2
          exact hfirst j (by have : b * bs ≤ (b + 1) * bs := by nlinarith
                             omega) hj2)
      rw [ihres]
      have hbd : b + 1 + d = b + (d + 1) := by omega
      have hcnt : b * bs + bs - b * bs = bs := by omega
      have hone : (b + 1) * bs = b * bs + bs := by ring
      have hrows : List.range' (b * bs) (b * bs + bs - b * bs)
            ++ List.range' ((b + 1) * bs) (d * bs + i)
          = List.range' (b * bs) ((d + 1) * bs + i) := by
        rw [hcnt, hone, List.range'_append_1]
        have : d * bs + i + bs = (d + 1) * bs + i := by ring
        rw [this]
      rw [List.range'_succ, List.flatMap_cons]
      refine Prod.ext ?_ (Prod.ext ?_ ?_)
      · simp only [hbd, hexp, hexp', List.cons_append, List.append_assoc]
        rfl
      · simp only []
        rw [← List.map_append, hrows]
      · simp only [hbd, hexp, hexp']

/-- C3: if block detection fires at relative position `i` of batch `k` (the
batch whose first record sits at window offset `k·bs`), the run appends rows
exactly for the window records before the blocking one — none for the
blocking record or any later record of that batch —, the checkpoint saved on
exit carries `blocked_url_idx = start_index + batch_start + i`, and no later
batch is attempted (its save trace ends at the blocked checkpoint). -/
theorem C3_block_halts_run (env : CrawlEnv) (bs total startIndex k i fuel : Nat)
    (file : String)
    (hi : i < bs) (hfuel : k < fuel) (hwin : k * bs + i < total)
    (hblock : env.outcome (k * bs + i) = RecOutcome.blocked)
    (hfirst : ∀ j < k * bs + i, env.outcome j ≠ RecOutcome.blocked) :
    crawlFrom env bs total startIndex file 0 fuel
      = ((List.range' 0 k).flatMap
            (fun m => [⟨file, m, startIndex + m * bs, none⟩,
                       ⟨file, m + 1, startIndex + (m * bs + bs), none⟩])
           ++ [⟨file, k, startIndex + k * bs, none⟩,
               ⟨file, k, startIndex + k * bs, some (startIndex + k * bs + i)⟩],
         (List.range' 0 (k * bs + i)).map (rowFor env startIndex),
         some (startIndex + k * bs + i)) := by
  have h := crawlFrom_until_block env bs total startIndex i file hi k 0 fuel hfuel
  simp only [Nat.zero_add, Nat.zero_mul] at h
  exact h hwin hblock (fun j _ hj2 => hfirst j hj2)

/-- A concrete environment for the C3 witness: block detection fires at
window index 3, every other record extracts an empty row. -/
def envC3 : CrawlEnv :=
  { outcome := fun j => if j = 3 then RecOutcome.blocked else RecOutcome.extracted []
    url := fun _ => Value.str "u"
    prodId := fun _ => none
    now := fun _ => "t" }

/-- Witness for C3: window of 5 records, batch size 2, resolved start 10,
block at batch 1 relative position 1 (window index 3): three rows appended,
final checkpoint blocked at 10 + 2 + 1 = 13, no batch-2 checkpoint. -/
theorem C3_block_halts_run_witness :
    crawlFrom envC3 2 5 10 "f" 0 5
      = ([⟨"f", 0, 10, none⟩, ⟨"f", 1, 12, none⟩, ⟨"f", 1, 12, none⟩,
          ⟨"f", 1, 12, some 13⟩],
         [[], [], []], some 13) := by
  rw [C3_block_halts_run envC3 2 5 10 1 1 5 "f" (by decide) (by decide) (by decide)
    (by decide) (by decide)]
  rfl

/-- In a run with no block, the save-trace element at position `2·d+1`
counting from batch `b` is the post-batch checkpoint of batch `b + d`. -/
theorem crawlFrom_post_save_no_block (env : CrawlEnv) (bs total startIndex : Nat)
    (file : String)
    (hnb : ∀ j < total, env.outcome j ≠ RecOutcome.blocked) :
    ∀ (d b fuel : Nat), d < fuel → (b + d) * bs < total →
      (crawlFrom env bs total startIndex file b fuel).1.get? (2 * d + 1)
        = some ⟨file, b + d + 1, startIndex + min ((b + d) * bs + bs) total, none⟩ := by
  intro d
  induction d with
  | zero =>
    intro b fuel hfuel hwin
    match fuel, hfuel with
    | fuel + 1, _ =>
      simp only [Nat.add_zero] at hwin ⊢
      have hnoblk : ∀ idx ∈ List.range' (b * bs) (min (b * bs + bs) total - b * bs),
          env.outcome idx ≠ RecOutcome.blocked := by
        intro idx hidx
        have h' := List.mem_range'_1.mp hidx
        exact hnb idx (by omega)
      rw [crawlFrom_step_no_block env bs total startIndex file b fuel hwin hnoblk]
      rfl
  | succ d ih =>
    intro b fuel hfuel hwin
    match fuel, hfuel with
    | fuel + 1, _ =>
      have hexp : (b + (d + 1)) * bs = b * bs + d * bs + bs := by ring
      rw [hexp] at hwin
      have hb : b * bs < total := by omega
      have hnoblk : ∀ idx ∈ List.range' (b * bs) (min (b * bs + bs) total - b * bs),
          env.outcome idx ≠ RecOutcome.blocked := by
        intro idx hidx
        have h' := List.mem_range'_1.mp hidx
        exact hnb idx (by omega)
      rw [crawlFrom_step_no_block env bs total startIndex file b fuel hb hnoblk]
      have hidx : 2 * (d + 1) + 1 = (2 * d + 1) + 1 + 1 := by ring
      rw [hidx, List.get?_cons_succ, List.get?_cons_succ]
      have harr : b + 1 + d = b + (d + 1) := by omega
      have ihres := ih (b + 1) fuel (by omega)
        (by rw [harr, hexp]; omega)
      rw [harr] at ihres
      exact ihres

/-- C5: in a run where no block occurs, the checkpoint saved after completing
batch `k` (the element at position `2k+1` of the save trace, following the
`k+1` pre-batch saves and `k` earlier post-batch saves) has
`last_index = start_index + min((k+1)·batch_size, window length)` — i.e.
`start_index + (k+1)·batch_size` clamped to the window end — and
`last_batch = k + 1`. -/
theorem C5_checkpoint_after_completed_batch (env : CrawlEnv)
    (bs total startIndex k fuel : Nat) (file : String)
    (hnb : ∀ j < total, env.outcome j ≠ RecOutcome.blocked)
    (hk : k * bs < total) (hfuel : k < fuel) :
    (crawlFrom env bs total startIndex file 0 fuel).1.get? (2 * k + 1)
      = some ⟨file, k + 1, startIndex + min ((k + 1) * bs) total, none⟩ := by
  have h := crawlFrom_post_save_no_block env bs total startIndex file hnb k 0 fuel hfuel
  simp only [Nat.zero_add] at h
  have h2 : k * bs + bs = (k + 1) * bs := by ring
  rw [h2] at h
  exact h hk

/-- An environment in which every record extracts an empty row and no block
ever fires. -/
def envNoBlock : CrawlEnv :=
  { outcome := fun _ => RecOutcome.extracted []
    url := fun _ => Value.str "u"
    prodId := fun _ => none
    now := fun _ => "t" }

/-- Witness for C5: window of 3 records, batch size 2, start 5; after batch 1
the saved checkpoint is `(batch 2, index 5 + min(4,3) = 8)`. -/
theorem C5_checkpoint_witness :
    (crawlFrom envNoBlock 2 3 5 "f" 0 5).1.get? 3 = some ⟨"f", 2, 8, none⟩ := by
  have h := C5_checkpoint_after_completed_batch envNoBlock 2 3 5 1 5 "f"
    (by decide) (by decide) (by decide)
  simpa using h

/-- A concrete environment whose single record's page load fails for good. -/
def envC2 : CrawlEnv :=
  { outcome := fun _ => RecOutcome.pageFail "Page load failed after retries"
    url := fun _ => Value.str "u"
    prodId := fun _ => none
    now := fun _ => "2025-01-01 00:00:00" }

/-- C2 counterexample: the single row emitted for a record whose page-load
retries are exhausted has no `DATE` cell at all, and a row whose extraction
retries are exhausted records `None` — not the `"NA"` sentinel — in its
`PRICE` cell.  Both contradict the claim's "every schema field … with each
unavailable value set to the sentinel". -/
theorem C2_counterexample :
    ((runBatch envC2 0 0 [0]).1.map (fun r => r.get "DATE")) = [none] ∧
    (extract_product_info (fun _ => Except.error ("boom", [])) "t" "d"
        (Value.str "u") (Value.int 0) none).get "PRICE" = some Value.null := by
  constructor
  · rfl
  · rfl

/-- Reducing the extraction retry loop when all three attempts raise without
having written any field. -/
theorem extractLoop_all_fail (attempt : Nat → Except (String × Row) Row)
    (now dateStr : String) (msg : Nat → String)
    (hatt : ∀ k, attempt k = Except.error (msg k, [])) (data : Row) :
    extractLoop attempt now dateStr data 0 2 = exhaustionFill data (msg 2) now := by
  simp only [extractLoop, hatt, applyFields, List.foldl_nil]

/-- Evaluating the exhaustion back-fill over the initial product data when
the source row carries no PROD_ID. -/
theorem exhaustionFill_init_none (url oi : Value) (m now : String) :
    exhaustionFill (initProductData url oi none) m now
      = [("URL", url), ("ORIGINAL_INDEX", oi), ("COUPANG_PROD_NAME", Value.null),
         ("PRICE", Value.null), ("ORIGIN_PRICE", Value.null), ("COUPON", Value.int 0),
         ("COUPON_PRICE", Value.null), ("AC_PRICE", Value.null),
         ("EXTRACTION_TIME", Value.str now), ("ERROR", Value.str m)] := by
  simp [exhaustionFill, initProductData, Row.setdefault, Row.hasCol, Row.get, Row.set]

/-- Evaluating the exhaustion back-fill over the initial product data when
the source row carries a PROD_ID. -/
theorem exhaustionFill_init_some (url oi p : Value) (m now : String) :
    exhaustionFill (initProductData url oi (some p)) m now
      = [("URL", url), ("ORIGINAL_INDEX", oi), ("PROD_ID", p),
         ("COUPANG_PROD_NAME", Value.null), ("PRICE", Value.null),
         ("ORIGIN_PRICE", Value.null), ("COUPON", Value.int 0),
         ("COUPON_PRICE", Value.null), ("AC_PRICE", Value.null),
         ("EXTRACTION_TIME", Value.str now), ("ERROR", Value.str m)] := by
  simp [exhaustionFill, initProductData, Row.setdefault, Row.hasCol, Row.get, Row.set]

/-- C2 amended: every attempted record of a block-free batch slice emits
exactly one result row, in input order.  On page-load retry exhaustion the
emitted row carries the `"NA"` sentinel in the name/price fields, `COUPON 0`,
the extraction time and the error message — but no `DATE` cell.  On
extraction retry exhaustion (no field written by any attempt) the emitted row
carries `None` (null), not `"NA"`, in the unavailable fields, `COUPON 0`, the
extraction time and the error message — and again no `DATE` cell. -/
theorem C2_one_row_with_fields :
    (∀ (env : CrawlEnv) (startIndex batchStart : Nat) (l : List Nat),
        (∀ idx ∈ l, env.outcome idx ≠ RecOutcome.blocked) →
        runBatch env startIndex batchStart l = (l.map (rowFor env startIndex), none)) ∧
    (∀ (url oi : Value) (pid : Option Value) (e now : String),
        (loadFailRow url oi pid e now).get "URL" = some url ∧
        (loadFailRow url oi pid e now).get "ORIGINAL_INDEX" = some oi ∧
        (loadFailRow url oi pid e now).get "COUPANG_PROD_NAME" = some (Value.str "NA") ∧
        (loadFailRow url oi pid e now).get "PRICE" = some (Value.str "NA") ∧
        (loadFailRow url oi pid e now).get "ORIGIN_PRICE" = some (Value.str "NA") ∧
        (loadFailRow url oi pid e now).get "COUPON" = some (Value.int 0) ∧
        (loadFailRow url oi pid e now).get "COUPON_PRICE" = some (Value.str "NA") ∧
        (loadFailRow url oi pid e now).get "AC_PRICE" = some (Value.str "NA") ∧
        (loadFailRow url oi pid e now).get "EXTRACTION_TIME" = some (Value.str now) ∧
        (loadFailRow url oi pid e now).get "ERROR" = some (Value.str e) ∧
        (loadFailRow url oi pid e now).get "DATE" = none) ∧
    (∀ (attempt : Nat → Except (String × Row) Row) (now dateStr : String)
        (msg : Nat → String) (url oi : Value) (pid : Option Value),
        (∀ k, attempt k = Except.error (msg k, [])) →
        (extract_product_info attempt now dateStr url oi pid).get "URL" = some url ∧
        (extract_product_info attempt now dateStr url oi pid).get "ORIGINAL_INDEX"
          = some oi ∧
        (extract_product_info attempt now dateStr url oi pid).get "COUPANG_PROD_NAME"
          = some Value.null ∧
        (extract_product_info attempt now dateStr url oi pid).get "PRICE"
          = some Value.null ∧
        (extract_product_info attempt now dateStr url oi pid).get "ORIGIN_PRICE"
          = some Value.null ∧
        (extract_product_info attempt now dateStr url oi pid).get "COUPON"
          = some (Value.int 0) ∧
        (extract_product_info attempt now dateStr url oi pid).get "COUPON_PRICE"
          = some Value.null ∧
        (extract_product_info attempt now dateStr url oi pid).get "AC_PRICE"
          = some Value.null ∧
        (extract_product_info attempt now dateStr url oi pid).get "EXTRACTION_TIME"
          = some (Value.str now) ∧
        (extract_product_info attempt now dateStr url oi pid).get "ERROR"
          = some (Value.str (msg 2)) ∧
        (extract_product_info attempt now dateStr url oi pid).get "DATE" = none) := by
  refine ⟨runBatch_no_block, ?_, ?_⟩
  · intro url oi pid e now
    cases pid <;>
      simp [loadFailRow, Row.get]
  · intro attempt now dateStr msg url oi pid hatt
    rw [extract_product_info, extractLoop_all_fail attempt now dateStr msg hatt]
    cases pid with
    | none =>
      rw [exhaustionFill_init_none]
      refine ⟨?_, ?_, ?_, ?_, ?_, ?_, ?_, ?_, ?_, ?_, ?_⟩ <;> simp [Row.get]
    | some p =>
      rw [exhaustionFill_init_some]
      refine ⟨?_, ?_, ?_, ?_, ?_, ?_, ?_, ?_, ?_, ?_, ?_⟩ <;> simp [Row.get]

/-- Witness for C2 amended at concrete inputs: a one-record block-free batch
emits one row, and the two failure-row shapes carry the described cells. -/
theorem C2_one_row_witness :
    runBatch envC2 0 0 [0] = ([rowFor envC2 0 0], none) ∧
    (loadFailRow (Value.str "u") (Value.int 0) none "e" "t").get "PRICE"
      = some (Value.str "NA") ∧
    (extract_product_info (fun _ => Except.error ("boom", [])) "t" "d"
        (Value.str "u") (Value.int 0) none).get "ERROR" = some (Value.str "boom") :=
  ⟨C2_one_row_with_fields.1 envC2 0 0 [0] (by decide),
   (C2_one_row_with_fields.2.1 (Value.str "u") (Value.int 0) none "e" "t").2.2.2.1,
   (C2_one_row_with_fields.2.2 (fun _ => Except.error ("boom", [])) "t" "d"
      (fun _ => "boom") (Value.str "u") (Value.int 0) none
      (fun _ => rfl)).2.2.2.2.2.2.2.2.2.1⟩

/-! ## Checkpoint reset on completion (C6) -/

/-- Constant `ConfigManager.STATUS_FILE` (`crawler.py` 61): a bare file name, which
resolves against the process working directory when used directly as a
path. -/
def STATUS_FILE : String := "crawler_status.json"

/-- Path `ConfigManager.status_path` (`crawler.py` 76): the checkpoint document
path that `save_status` writes and `load_status` reads. -/
def status_path (base_dir : String) : String :=
  base_dir ++ "/config/" ++ STATUS_FILE

/-- A file store mapping paths to checkpoint documents. -/
abbrev StatusStore := List (String × Status)

/-- Read the document at path `p`, if present. -/
def StatusStore.read (fs : StatusStore) (p : String) : Option Status :=
  match fs with
  | [] => none
  | (q, s) :: t => if q = p then some s else StatusStore.read t p

/-- Whether a document exists at path `p` (`os.path.exists`). -/
def StatusStore.hasPath (fs : StatusStore) (p : String) : Bool :=
  (fs.read p).isSome

/-- Write (fully replace) the document at path `p`. -/
def StatusStore.write (fs : StatusStore) (p : String) (s : Status) : StatusStore :=
  match fs with
  | [] => [(p, s)]
  | (q, s') :: t => if q = p then (p, s) :: t else (q, s') :: StatusStore.write t p s

/-- The empty/identity checkpoint written on full completion
(`crawler.py` 995–1001). -/
def initial_status : Status := ⟨"", 0, 0, none⟩

/-- The completion-time reset of `process_urls` (`crawler.py` 992–1008): it
tests and writes the bare `STATUS_FILE` name — the working-directory path —
not `status_path`, and only when a file already exists at that bare name. -/
def resetStatusOnComplete (fs : StatusStore) : StatusStore :=
  if fs.hasPath STATUS_FILE then fs.write STATUS_FILE initial_status else fs

/-- Model of `ConfigManager.load_status` (`crawler.py` 137–147): reads `status_path`. -/
def load_status (fs : StatusStore) (base_dir : String) : Option Status :=
  fs.read (status_path base_dir)

/-- C6 fails on the code: the completion-time reset addresses the bare
working-directory file name, which is never the `<base_dir>/config/…`
document that `save_status` writes and `load_status` reads; on a store
holding exactly the checkpoint `save_status` wrote, the "reset" leaves the
document that the next invocation's `load_status` reads untouched. -/
theorem C6_reset_misses_checkpoint (base_dir : String) (st : Status) :
    status_path base_dir ≠ STATUS_FILE ∧
    load_status (resetStatusOnComplete (StatusStore.write [] (status_path base_dir) st))
        base_dir = some st := by
  have hne : status_path base_dir ≠ STATUS_FILE := by
    intro h
    have hlen := congrArg String.length h
    simp only [status_path, STATUS_FILE] at hlen
    rw [String.length_append, String.length_append] at hlen
    have h8 : "/config/".length = 8 := rfl
    have h19 : "crawler_status.json".length = 19 := rfl
    rw [h8, h19] at hlen
    omega
  refine ⟨hne, ?_⟩
  simp [load_status, resetStatusOnComplete, StatusStore.write, StatusStore.read,
    StatusStore.hasPath, hne]


/-! ## ResultValidator._update_dataframe -/

/-- Whether a re-crawled record carries an error marker — the complement of
the update guard `"ERROR" not in fixed_record or fixed_record["ERROR"] is
None` (`crawler.py` 1573). -/
def recordHasError (rec : Row) : Bool :=
  match rec.get "ERROR" with
  | some v => !(v == Value.null)
  | none => false

/-- The per-row overwrite the merge performs for a successful re-crawl: each
fixed field whose column exists in the frame is assigned by name, then the
`ERROR` cell is cleared to null when the frame has an `ERROR` column
(`crawler.py` 1575–1581). -/
def applyFixed (cols : List String) (fixed : Row) (r : Row) : Row :=
  let r1 := fixed.foldl
    (fun acc cv => if cols.contains cv.1 then acc.set cv.1 cv.2 else acc) r
  if cols.contains "ERROR" then r1.set "ERROR" Value.null else r1

/-- Model of `ResultValidator._update_dataframe` (`crawler.py` 1556–1589): for each
re-crawled record carrying a non-null `ORIGINAL_INDEX`, when some frame row
matches that index and the record has no error marker, overwrite all matching
rows and clear their error; otherwise leave the frame untouched. -/
def update_dataframe (df : DataFrame) (fixedRecords : List Row) : DataFrame :=
  fixedRecords.foldl (fun acc fixed =>
    match fixed.get "ORIGINAL_INDEX" with
    | none => acc
    | some oi =>
      if oi = Value.null then acc
      else if acc.rows.any (fun r => r.getD "ORIGINAL_INDEX" == oi) then
        if recordHasError fixed then acc
        else { acc with rows := acc.rows.map (fun r =>
          if r.getD "ORIGINAL_INDEX" == oi then applyFixed acc.cols fixed r else r) }
      else acc) df

/-- Setting a column and reading it back. -/
theorem Row.get_set_self (r : Row) (c : String) (v : Value) :
    (r.set c v).get c = some v := by
  induction r with
  | nil => simp [Row.set, Row.get]
  | cons p t ih =>
    by_cases h : p.1 = c
    · simp [Row.set, Row.get, h]
    · simp [Row.set, Row.get, h, ih]

/-- Setting one column leaves every other column's cell unchanged. -/
theorem Row.get_set_ne (r : Row) (c c' : String) (v : Value) (h : c' ≠ c) :
    (r.set c v).get c' = r.get c' := by
  have h' : ¬(c = c') := fun hh => h hh.symm
  induction r with
  | nil => simp [Row.set, Row.get, h']
  | cons p t ih =>
    by_cases hp : p.1 = c
    · simp [Row.set, Row.get, hp, h']
    · simp [Row.set, Row.get, hp, ih]

/-- The field-overwrite fold leaves columns that no fixed field names
unchanged. -/
theorem applyFixedFold_get_notkey (cols : List String) (l : Row) (r : Row)
    (c : String) (hc : c ∉ l.map Prod.fst) :
    (l.foldl (fun acc cv => if cols.contains cv.1 then acc.set cv.1 cv.2 else acc) r).get c
      = r.get c := by
  induction l generalizing r with
  | nil => rfl
  | cons p t ih =>
    have hne : c ≠ p.1 := by
      intro h
      exact hc (by simp [h])
    have ht : c ∉ t.map Prod.fst := by
      intro h
      exact hc (by simp [h])
    by_cases hmem : cols.contains p.1
    · simp only [List.foldl_cons, hmem, if_true]
      rw [ih _ ht, Row.get_set_ne _ _ _ _ hne]
    · simp only [List.foldl_cons, hmem, Bool.false_eq_true, if_false]
      exact ih _ ht

/-- The field-overwrite fold assigns each named column that exists in the
frame (fixed records bind each column at most once). -/
theorem applyFixedFold_get_key (cols : List String) (l : Row) (r : Row)
    (c : String) (v : Value)
    (hnd : (l.map Prod.fst).Nodup) (hmem : (c, v) ∈ l)
    (hcol : cols.contains c = true) :
    (l.foldl (fun acc cv => if cols.contains cv.1 then acc.set cv.1 cv.2 else acc) r).get c
      = some v := by
  induction l generalizing r with
  | nil => simp at hmem
  | cons p t ih =>
    rcases List.mem_cons.mp hmem with heq | htail
    · subst heq
      simp only [List.foldl_cons, hcol, if_true]
      have hnot : c ∉ t.map Prod.fst := by
        simp only [List.map_cons, List.nodup_cons] at hnd
        exact hnd.1
      rw [applyFixedFold_get_notkey cols t _ c hnot, Row.get_set_self]
    · have hne : p.1 ≠ c := by
        simp only [List.map_cons, List.nodup_cons] at hnd
        intro h
        exact hnd.1 (h ▸ List.mem_map_of_mem Prod.fst htail)
      have hnd' : (t.map Prod.fst).Nodup := by
        simp only [List.map_cons, List.nodup_cons] at hnd
        exact hnd.2
      by_cases hp : cols.contains p.1
      · simp only [List.foldl_cons, hp, if_true]
        exact ih _ hnd' htail
      · simp only [List.foldl_cons, hp, Bool.false_eq_true, if_false]
        exact ih _ hnd' htail

/-- Reading the merged row: named columns present in the frame are
overwritten, the `ERROR` cell is cleared when the frame has one, and every
other column keeps its old cell. -/
theorem applyFixed_get (cols : List String) (fixed r : Row)
    (hnd : (fixed.map Prod.fst).Nodup) :
    (∀ c v, (c, v) ∈ fixed → cols.contains c = true → c ≠ "ERROR" →
        (applyFixed cols fixed r).get c = some v) ∧
    (cols.contains "ERROR" = true →
        (applyFixed cols fixed r).get "ERROR" = some Value.null) ∧
    (∀ c, c ∉ fixed.map Prod.fst → c ≠ "ERROR" →
        (applyFixed cols fixed r).get c = r.get c) := by
  refine ⟨?_, ?_, ?_⟩
  · intro c v hmem hcol hce
    unfold applyFixed
    by_cases hE : cols.contains "ERROR"
    · simp only [hE, if_true]
      rw [Row.get_set_ne _ _ _ _ hce, applyFixedFold_get_key cols fixed r c v hnd hmem hcol]
    · simp only [hE, Bool.false_eq_true, if_false]
      exact applyFixedFold_get_key cols fixed r c v hnd hmem hcol
  · intro hE
    unfold applyFixed
    simp only [hE, if_true]
    exact Row.get_set_self _ _ _
  · intro c hnk hce
    unfold applyFixed
    by_cases hE : cols.contains "ERROR"
    · simp only [hE, if_true]
      rw [Row.get_set_ne _ _ _ _ hce, applyFixedFold_get_notkey cols fixed r c hnk]
    · simp only [hE, Bool.false_eq_true, if_false]
      exact applyFixedFold_get_notkey cols fixed r c hnk

/-- Merging a single successful re-crawl record: the frame keeps its columns
and maps exactly the matching rows through the overwrite. -/
theorem update_dataframe_single_success (df : DataFrame) (fixed : Row) (oi : Value)
    (hne : recordHasError fixed = false)
    (hoi : fixed.get "ORIGINAL_INDEX" = some oi) (hnull : oi ≠ Value.null)
    (hmatch : df.rows.any (fun r => r.getD "ORIGINAL_INDEX" == oi) = true) :
    update_dataframe df [fixed]
      = ⟨df.cols, df.rows.map (fun r =>
          if r.getD "ORIGINAL_INDEX" == oi then applyFixed df.cols fixed r else r)⟩ := by
  unfold update_dataframe
  rw [List.foldl_cons, List.foldl_nil, hoi]
  dsimp only
  rw [if_neg hnull, if_pos hmatch, if_neg (by simp [hne])]

/-- Merging a single re-crawl record that still carries an error marker
leaves the whole frame untouched. -/
theorem update_dataframe_single_error (df : DataFrame) (fixed : Row)
    (herr : recordHasError fixed = true) :
    update_dataframe df [fixed] = df := by
  unfold update_dataframe
  rw [List.foldl_cons, List.foldl_nil]
  cases hoi : fixed.get "ORIGINAL_INDEX" with
  | none => rfl
  | some oi =>
    dsimp only
    by_cases hnull : oi = Value.null
    · rw [if_pos hnull]
    · rw [if_neg hnull]
      by_cases hmatch : df.rows.any (fun r => r.getD "ORIGINAL_INDEX" == oi) = true
      · rw [if_pos hmatch, if_pos herr]
      · rw [if_neg hmatch]

/-- C7: merging one re-crawled result that still carries an error marker
leaves every row of the output store byte-identical (the frame is unchanged);
merging one result with no error marker overwrites, in every row matched by
`ORIGINAL_INDEX`, exactly the fixed record's named columns that exist in the
frame, clears the `ERROR` cell to null, keeps all other cells, and leaves
every unmatched row unchanged. -/
theorem C7_merge_policy (df : DataFrame) (fixed : Row) :
    (recordHasError fixed = true → update_dataframe df [fixed] = df) ∧
    (∀ (oi : Value), recordHasError fixed = false →
      fixed.get "ORIGINAL_INDEX" = some oi → oi ≠ Value.null →
      df.rows.any (fun r => r.getD "ORIGINAL_INDEX" == oi) = true →
      (fixed.map Prod.fst).Nodup →
      (update_dataframe df [fixed]).cols = df.cols ∧
      (update_dataframe df [fixed]).rows.length = df.rows.length ∧
      ∀ (j : Nat) (r : Row), df.rows.get? j = some r →
        ((r.getD "ORIGINAL_INDEX" == oi) = false →
            (update_dataframe df [fixed]).rows.get? j = some r) ∧
        ((r.getD "ORIGINAL_INDEX" == oi) = true →
          ∃ r', (update_dataframe df [fixed]).rows.get? j = some r' ∧
            (∀ c v, (c, v) ∈ fixed → df.cols.contains c = true → c ≠ "ERROR" →
                r'.get c = some v) ∧
            (df.cols.contains "ERROR" = true → r'.get "ERROR" = some Value.null) ∧
            (∀ c, c ∉ fixed.map Prod.fst → c ≠ "ERROR" → r'.get c = r.get c))) := by
  refine ⟨update_dataframe_single_error df fixed, ?_⟩
  intro oi hne hoi hnull hmatch hnd
  rw [update_dataframe_single_success df fixed oi hne hoi hnull hmatch]
  refine ⟨rfl, by simp, ?_⟩
  intro j r hj
  constructor
  · intro hmiss
    rw [List.get?_map, hj]
    simp only [Option.map_some']
    rw [if_neg (by simp [hmiss])]
  · intro hhit
    refine ⟨applyFixed df.cols fixed r, ?_, ?_, ?_, ?_⟩
    · rw [List.get?_map, hj]
      simp only [Option.map_some']
      rw [if_pos hhit]
    · exact fun c v hm hc hce => (applyFixed_get df.cols fixed r hnd).1 c v hm hc hce
    · exact (applyFixed_get df.cols fixed r hnd).2.1
    · exact fun c hnk hce => (applyFixed_get df.cols fixed r hnd).2.2 c hnk hce

/-- Witness for C7: a failed re-crawl leaves a concrete frame untouched, and
a successful one overwrites the matched row's price and clears its error. -/
theorem C7_merge_policy_witness :
    update_dataframe
        ⟨["ORIGINAL_INDEX", "PRICE", "ERROR"],
         [[("ORIGINAL_INDEX", Value.int 4), ("PRICE", Value.str "NA"),
           ("ERROR", Value.str "boom")]]⟩
        [[("ORIGINAL_INDEX", Value.int 4), ("ERROR", Value.str "재수집 실패")]]
      = ⟨["ORIGINAL_INDEX", "PRICE", "ERROR"],
         [[("ORIGINAL_INDEX", Value.int 4), ("PRICE", Value.str "NA"),
           ("ERROR", Value.str "boom")]]⟩ ∧
    ∃ r', (update_dataframe
        ⟨["ORIGINAL_INDEX", "PRICE", "ERROR"],
         [[("ORIGINAL_INDEX", Value.int 4), ("PRICE", Value.str "NA"),
           ("ERROR", Value.str "boom")]]⟩
        [[("ORIGINAL_INDEX", Value.int 4), ("PRICE", Value.int 999)]]).rows.get? 0
        = some r' ∧
      r'.get "PRICE" = some (Value.int 999) ∧
      r'.get "ERROR" = some Value.null := by
  constructor
  · exact (C7_merge_policy _ _).1 rfl
  · have h := ((C7_merge_policy
        ⟨["ORIGINAL_INDEX", "PRICE", "ERROR"],
         [[("ORIGINAL_INDEX", Value.int 4), ("PRICE", Value.str "NA"),
           ("ERROR", Value.str "boom")]]⟩
        [("ORIGINAL_INDEX", Value.int 4), ("PRICE", Value.int 999)]).2
      (Value.int 4) rfl rfl (by decide) (by decide) (by decide)).2.2 0
      [("ORIGINAL_INDEX", Value.int 4), ("PRICE", Value.str "NA"),
       ("ERROR", Value.str "boom")] rfl
    obtain ⟨r', hr', hset, herr, -⟩ := h.2 (by decide)
    exact ⟨r', hr', hset "PRICE" (Value.int 999) (by decide) (by decide) (by decide),
      herr (by decide)⟩

/-! ## ResultValidator.validate_and_recrawl -/

/-- The outcome of `validate_and_recrawl` on a loaded result frame: the
`_original` backup written first, whether any re-crawl was driven, and the
content of the validated output file (`crawler.py` 1317–1372).  Re-crawling
the error records is abstracted as a function from the error frame to the
collected results. -/
structure ValidationOutcome where
  backup : List Row
  recrawlDriven : Bool
  validated : List Row
deriving DecidableEq, Repr

/-- Model of `ResultValidator.validate_and_recrawl`: back up the frame, identify error
records; with zero error records write a validated copy identical to the
input and stop; otherwise re-crawl them and merge. -/
def validate_and_recrawl (df : DataFrame) (recrawl : List Row → List Row) :
    ValidationOutcome :=
  let error_df := identify_error_records df
  if error_df.length = 0 then
    { backup := df.rows, recrawlDriven := false, validated := df.rows }
  else
    { backup := df.rows, recrawlDriven := true,
      validated := (update_dataframe df (recrawl error_df)).rows }

/-- C8: on a store with zero error records, validation drives no re-crawl and
the validated output is identical to the input store. -/
theorem C8_validation_no_errors_idempotent (df : DataFrame)
    (recrawl : List Row → List Row)
    (h : identify_error_records df = []) :
    validate_and_recrawl df recrawl
      = { backup := df.rows, recrawlDriven := false, validated := df.rows } := by
  simp [validate_and_recrawl, h]

/-- Witness for C8 on a concrete error-free store. -/
theorem C8_validation_witness :
    validate_and_recrawl
        ⟨["URL", "PRICE"], [[("URL", Value.str "u"), ("PRICE", Value.int 5)]]⟩
        (fun e => e)
      = { backup := [[("URL", Value.str "u"), ("PRICE", Value.int 5)]],
          recrawlDriven := false,
          validated := [[("URL", Value.str "u"), ("PRICE", Value.int 5)]] } :=
  C8_validation_no_errors_idempotent
    ⟨["URL", "PRICE"], [[("URL", Value.str "u"), ("PRICE", Value.int 5)]]⟩
    (fun e => e) (by decide)

/-! ## Start-index resolution (C9) -/

/-- The start-index resolution of `process_urls` (`crawler.py` 867–888): with
auto-restart on and a saved checkpoint for the same source file, a recorded
`blocked_url_idx` wins, else a `last_index` strictly above the requested
start wins, else the requested start stands; otherwise the requested start is
used unchanged. -/
def resolve_start_index (auto_restart : Bool) (saved : Option Status)
    (xlsx_file_path : String) (start_index : Nat) : Nat :=
  if auto_restart then
    match saved with
    | some st =>
      if st.file_path = xlsx_file_path then
        match st.blocked_url_idx with
        | some b => b
        | none =>
          if start_index < st.last_index then st.last_index else start_index
      else start_index
    | none => start_index
  else start_index

/-- C9: with auto-resume on and a checkpoint for the requested file, the
resolved start is the blocked index when present, else the checkpoint's last
index when it strictly exceeds the requested start, else the requested start;
with auto-resume off, or a checkpoint for a different file, the requested
start is used unchanged. -/
theorem C9_resume_resolution (st : Status) (file : String) (start : Nat) :
    (st.file_path = file →
      (∀ b, st.blocked_url_idx = some b →
          resolve_start_index true (some st) file start = b) ∧
      (st.blocked_url_idx = none → start < st.last_index →
          resolve_start_index true (some st) file start = st.last_index) ∧
      (st.blocked_url_idx = none → ¬start < st.last_index →
          resolve_start_index true (some st) file start = start)) ∧
    (∀ (saved : Option Status), resolve_start_index false saved file start = start) ∧
    (st.file_path ≠ file → resolve_start_index true (some st) file start = start) := by
  refine ⟨?_, ?_, ?_⟩
  · intro hf
    refine ⟨?_, ?_, ?_⟩
    · intro b hb
      simp [resolve_start_index, hf, hb]
    · intro hb hlt
      simp [resolve_start_index, hf, hb, hlt]
    · intro hb hlt
      simp [resolve_start_index, hf, hb, hlt]
  · intro saved
    simp [resolve_start_index]
  · intro hf
    simp [resolve_start_index, hf]

/-- Witness for C9 exercising all five resolution cases at concrete
checkpoints. -/
theorem C9_resume_witness :
    resolve_start_index true (some ⟨"f", 1, 7, some 42⟩) "f" 0 = 42 ∧
    resolve_start_index true (some ⟨"f", 1, 7, none⟩) "f" 3 = 7 ∧
    resolve_start_index true (some ⟨"f", 1, 7, none⟩) "f" 9 = 9 ∧
    resolve_start_index false (some ⟨"f", 1, 7, some 42⟩) "f" 5 = 5 ∧
    resolve_start_index true (some ⟨"g", 1, 7, some 42⟩) "f" 5 = 5 :=
  ⟨((C9_resume_resolution ⟨"f", 1, 7, some 42⟩ "f" 0).1 rfl).1 42 rfl,
   ((C9_resume_resolution ⟨"f", 1, 7, none⟩ "f" 3).1 rfl).2.1 rfl (by decide),
   ((C9_resume_resolution ⟨"f", 1, 7, none⟩ "f" 9).1 rfl).2.2 rfl (by decide),
   (C9_resume_resolution ⟨"f", 1, 7, some 42⟩ "f" 5).2.1 (some ⟨"f", 1, 7, some 42⟩),
   (C9_resume_resolution ⟨"g", 1, 7, some 42⟩ "f" 5).2.2 (by decide)⟩
